import Mathlib

/-!
Shallow embedding of the custom JAX training loop from
`guides/ipynb/writing_a_custom_training_loop_in_jax.ipynb`.

Numeric arrays are flattened to lists of rationals; a variable collection
(`model.trainable_variables`, `optimizer.variables`, `metric.variables`, …)
is an ordered list of such arrays.  The external collaborators supplied by
keras/jax (the model's `stateless_call`, the loss function, the optimizer's
`stateless_apply`, the metric's `stateless_update_state`, and
`jax.value_and_grad`) are out of the repository; they appear either as
explicit function parameters or as definitions modelled from the spec's
stated contracts, while the notebook's own code (`compute_loss_and_updates`,
`train_step`, `eval_step`, the outer loops and the re-attachment code) is
translated directly.
-/

/-- A numeric array, flattened. -/
abbrev Arr : Type := List ℚ

/-- An ordered collection of numeric arrays (a list of variables). -/
abbrev Collection : Type := List Arr

/-- The shape signature of a collection: the number and shapes of the
contained arrays (here: the list of their lengths). -/
def shapeSig (c : Collection) : List Nat := c.map List.length

/-- A batch `data = (x, y)` of inputs and one-hot targets, each a list of
per-sample rows. -/
abbrev Batch : Type := List Arr × List Arr

/-- A loss function `loss_fn(y, y_pred)`, e.g. categorical crossentropy.
External collaborator (keras), kept abstract. -/
abbrev LossFn : Type := List Arr → List Arr → ℚ

/-- A stateless metric update `metric.stateless_update_state(metric_variables,
y, y_pred)`.  External collaborator (keras), kept abstract here; a concrete
model of the accumulator appears below for the metric-contract claims. -/
abbrev MetricUpdate : Type := Collection → List Arr → List Arr → Collection

/-- A stateless optimizer update `optimizer.stateless_apply(optimizer_variables,
grads, trainable_variables)` returning the updated trainable variables and the
updated optimizer variables.  External collaborator (keras), kept abstract. -/
abbrev OptimizerApply : Type := Collection → Collection → Collection → Collection × Collection

/-- The stateless model adapter: `model.stateless_call` with and without
`return_losses=True`.  External collaborator (keras), kept abstract.  The
final `Bool` argument of `stateless_call` is the `training` flag. -/
structure Model where
  stateless_call : Collection → Collection → List Arr → Bool → List Arr × Collection
  stateless_call_losses : Collection → Collection → List Arr → List Arr × Collection × List ℚ

/-- Modelled from the spec: the differentiable numeric engine
(`jax.value_and_grad` / `jax.grad`) is external to the repository.  `grad f tv`
is the gradient of the scalar function `f` at `tv`; per the spec's contract the
gradients have exactly the same nested shape as the differentiated argument. -/
structure AutodiffEngine where
  grad : (Collection → ℚ) → Collection → Collection
  grad_shape : ∀ f tv, shapeSig (grad f tv) = shapeSig tv

/-- Modelled from the spec: `jax.value_and_grad(f, has_aux=True)` applied to a
pure function whose return value is `(loss_scalar, auxiliary_outputs)`:
it returns `((loss_scalar, auxiliary_outputs), gradients)`, differentiating
the first element of the return value and passing every other returned value
through unmodified. -/
def value_and_grad_aux {β : Type} (E : AutodiffEngine)
    (f : Collection → ℚ × β) (trainable_variables : Collection) :
    (ℚ × β) × Collection :=
  (f trainable_variables, E.grad (fun v => (f v).1) trainable_variables)

/-- First `compute_loss_and_updates` of the guide (no metrics): forward pass
with `training=True`, then the loss; returns `(loss, non_trainable_variables)`. -/
def compute_loss_and_updates_v1 (M : Model) (loss_fn : LossFn)
    (trainable_variables non_trainable_variables : Collection)
    (x y : List Arr) : ℚ × Collection :=
  let r := M.stateless_call trainable_variables non_trainable_variables x true
  let y_pred := r.1
  let non_trainable_variables := r.2
  let loss := loss_fn y y_pred
  (loss, non_trainable_variables)

/-- The metrics-aware `compute_loss_and_updates` of the guide: forward pass,
loss, metric accumulation; returns
`(loss, (non_trainable_variables, metric_variables))`. -/
def compute_loss_and_updates (M : Model) (loss_fn : LossFn)
    (metric_update : MetricUpdate)
    (trainable_variables non_trainable_variables metric_variables : Collection)
    (x y : List Arr) : ℚ × (Collection × Collection) :=
  let r := M.stateless_call trainable_variables non_trainable_variables x false
  let y_pred := r.1
  let non_trainable_variables := r.2
  let loss := loss_fn y y_pred
  let metric_variables := metric_update metric_variables y y_pred
  (loss, (non_trainable_variables, metric_variables))

/-- The final `compute_loss_and_updates` of the guide: forward pass with
`return_losses=True`; when the tracked-losses list is non-empty their sum is
added to the main loss; then metric accumulation.  Returns the flat triple
`(loss, non_trainable_variables, metric_variables)`. -/
def compute_loss_and_updates_with_losses (M : Model) (loss_fn : LossFn)
    (metric_update : MetricUpdate)
    (trainable_variables non_trainable_variables metric_variables : Collection)
    (x y : List Arr) : ℚ × Collection × Collection :=
  let r := M.stateless_call_losses trainable_variables non_trainable_variables x
  let y_pred := r.1
  let non_trainable_variables := r.2.1
  let losses := r.2.2
  let loss := loss_fn y y_pred
  let loss := if losses = [] then loss else loss + losses.sum
  let metric_variables := metric_update metric_variables y y_pred
  (loss, non_trainable_variables, metric_variables)

/-- `grad_fn = jax.value_and_grad(compute_loss_and_updates, has_aux=True)`,
differentiating with respect to the first positional argument
(`trainable_variables`). -/
def grad_fn (E : AutodiffEngine) (M : Model) (loss_fn : LossFn)
    (metric_update : MetricUpdate)
    (trainable_variables non_trainable_variables metric_variables : Collection)
    (x y : List Arr) : (ℚ × (Collection × Collection)) × Collection :=
  value_and_grad_aux E
    (fun v => compute_loss_and_updates M loss_fn metric_update
      v non_trainable_variables metric_variables x y)
    trainable_variables

/-- The four-component state tuple threaded through `train_step`. -/
structure TrainState where
  trainable_variables : Collection
  non_trainable_variables : Collection
  optimizer_variables : Collection
  metric_variables : Collection
deriving DecidableEq

/-- The three-component state tuple threaded through `eval_step`. -/
structure EvalState where
  trainable_variables : Collection
  non_trainable_variables : Collection
  metric_variables : Collection
deriving DecidableEq

/-- The metrics-aware `train_step` of the guide: unpack the state tuple, call
`grad_fn`, apply `optimizer.stateless_apply`, return the loss and the updated
four-component state tuple. -/
def train_step (E : AutodiffEngine) (M : Model) (loss_fn : LossFn)
    (opt_apply : OptimizerApply) (metric_update : MetricUpdate)
    (state : TrainState) (data : Batch) : ℚ × TrainState :=
  let x := data.1
  let y := data.2
  let r := grad_fn E M loss_fn metric_update
    state.trainable_variables state.non_trainable_variables
    state.metric_variables x y
  let loss := r.1.1
  let non_trainable_variables := r.1.2.1
  let metric_variables := r.1.2.2
  let grads := r.2
  let u := opt_apply state.optimizer_variables grads state.trainable_variables
  let trainable_variables := u.1
  let optimizer_variables := u.2
  (loss, ⟨trainable_variables, non_trainable_variables,
          optimizer_variables, metric_variables⟩)

/-- The `eval_step` of the guide: forward pass, loss, metric accumulation;
returns the loss and the three-component state tuple, the trainable variables
passed through. -/
def eval_step (M : Model) (loss_fn : LossFn)
    (metric_update : MetricUpdate)
    (state : EvalState) (data : Batch) : ℚ × EvalState :=
  let x := data.1
  let y := data.2
  let r := M.stateless_call state.trainable_variables
    state.non_trainable_variables x false
  let y_pred := r.1
  let non_trainable_variables := r.2
  let loss := loss_fn y y_pred
  let metric_variables := metric_update state.metric_variables y y_pred
  (loss, ⟨state.trainable_variables, non_trainable_variables,
          metric_variables⟩)

/-- An invocation of `train_step` in its runtime context: `callCount` is how
many times the step has been invoked so far and `wallClock` the current time.
The body is the translation of the source, which reads neither. -/
def train_step_invocation (callCount wallClock : Nat)
    (E : AutodiffEngine) (M : Model) (loss_fn : LossFn)
    (opt_apply : OptimizerApply) (metric_update : MetricUpdate)
    (state : TrainState) (data : Batch) : ℚ × TrainState :=
  train_step E M loss_fn opt_apply metric_update state data

/-- An invocation of `eval_step` in its runtime context (see
`train_step_invocation`). -/
def eval_step_invocation (callCount wallClock : Nat)
    (M : Model) (loss_fn : LossFn) (metric_update : MetricUpdate)
    (state : EvalState) (data : Batch) : ℚ × EvalState :=
  eval_step M loss_fn metric_update state data

/-- The eval-state setup of the guide's outer loop driver, translated
statement by statement: first `metric_variables = val_acc_metric.variables`
binds the validation metric's accumulator, then the four-component unpack of
`state` rebinds all four names — `metric_variables` included — before the
three-component eval state is packed. -/
def eval_state_setup (val_acc_metric_variables : Collection)
    (state : TrainState) : EvalState :=
  let metric_variables := val_acc_metric_variables
  let trainable_variables := state.trainable_variables
  let non_trainable_variables := state.non_trainable_variables
  let optimizer_variables := state.optimizer_variables
  let metric_variables := state.metric_variables
  ⟨trainable_variables, non_trainable_variables, metric_variables⟩

/-- The long-lived mutable keras objects of the guide: the model's two
variable lists, the optimizer's variables, and the two metric objects'
variables.  Only `variable.assign(value)` loops in the notebook write to
them. -/
structure MutableObjects where
  model_trainable_variables : Collection
  model_non_trainable_variables : Collection
  optimizer_variables : Collection
  train_acc_metric_variables : Collection
  val_acc_metric_variables : Collection
deriving DecidableEq

/-- `for variable, value in zip(variables, values): variable.assign(value)` —
each variable in the zip takes the paired new value. -/
def zipAssign (vars values : Collection) : Collection :=
  (vars.zip values).map (fun p => p.2)

/-- The final-state re-attachment code of the guide: one assign loop over the
model's trainable variables and one over its non-trainable variables; nothing
else is written. -/
def reattach_model_variables (objs : MutableObjects)
    (trainable_variables non_trainable_variables : Collection) :
    MutableObjects :=
  { objs with
    model_trainable_variables :=
      zipAssign objs.model_trainable_variables trainable_variables
    model_non_trainable_variables :=
      zipAssign objs.model_non_trainable_variables non_trainable_variables }

/-- The training loop's periodic metric logging: assign the state tuple's
metric component into `train_acc_metric.variables`. -/
def attach_train_metric_variables (objs : MutableObjects)
    (metric_variables : Collection) : MutableObjects :=
  { objs with
    train_acc_metric_variables :=
      zipAssign objs.train_acc_metric_variables metric_variables }

/-- The eval loop's periodic metric logging: assign the state tuple's metric
component into `val_acc_metric.variables`. -/
def attach_val_metric_variables (objs : MutableObjects)
    (metric_variables : Collection) : MutableObjects :=
  { objs with
    val_acc_metric_variables :=
      zipAssign objs.val_acc_metric_variables metric_variables }

/-- Modelled from the spec: the keras `CategoricalAccuracy` metric object is
external to the repository.  Its accumulator holds the partial sums
(correct-count, total-count); `update` is pure and additive; `reduce` reports
the ratio of correct to total; `reset` defines the zero state. -/
structure MetricAccum where
  correct : ℚ
  total : ℚ
deriving DecidableEq

/-- Modelled from the spec: the zero accumulator, `metric.reset_state()`. -/
def metric_reset : MetricAccum := ⟨0, 0⟩

/-- Index of the first maximum of a row (categorical prediction). -/
def argmaxFrom (bestIdx : Nat) (best : ℚ) (i : Nat) : List ℚ → Nat
  | [] => bestIdx
  | a :: rest =>
      if best < a then argmaxFrom i a (i + 1) rest
      else argmaxFrom bestIdx best (i + 1) rest

/-- Index of the first maximum of a row. -/
def argmax : List ℚ → Nat
  | [] => 0
  | a :: rest => argmaxFrom 0 a 1 rest

/-- Number of samples whose target and prediction rows agree on the argmax. -/
def matchCount (y y_pred : List Arr) : ℚ :=
  (((y.zip y_pred).filter (fun p => argmax p.1 = argmax p.2)).length : ℚ)

/-- Modelled from the spec: the metric's pure additive update
`update(metric_accum, targets, predictions)`: it accumulates the correct-count
and the total-count rather than replacing them. -/
def metric_update_state (acc : MetricAccum) (y y_pred : List Arr) :
    MetricAccum :=
  ⟨acc.correct + matchCount y y_pred, acc.total + (y.length : ℚ)⟩

/-- Modelled from the spec: `reduce(metric_accum)` reports the ratio of
correct to total (0 when nothing was accumulated). -/
def metric_result (acc : MetricAccum) : ℚ :=
  if acc.total = 0 then 0 else acc.correct / acc.total

/-- Modelled from the spec: hyperparameters of the momentum-based descent rule
the spec names as the exemplar optimizer update (the notebook builds a
momentum-family keras optimizer, `Adam`). -/
structure OptHyper where
  learning_rate : ℚ
  momentum : ℚ

/-- One velocity array update: `v = momentum * v - learning_rate * g`. -/
def velocity_update (h : OptHyper) (v g : Arr) : Arr :=
  (v.zip g).map (fun p => h.momentum * p.1 - h.learning_rate * p.2)

/-- Modelled from the spec: the stateless momentum-descent update
`(optimizer_accum, gradients, trainable_params) ↦
(updated_trainable_params, updated_optimizer_accum)` with
`v = momentum * v - learning_rate * g` and `p = p + v`, the accumulator keyed
positionally to the parameter collection. -/
def momentum_stateless_apply (h : OptHyper)
    (optimizer_variables grads trainable_variables : Collection) :
    Collection × Collection :=
  let new_velocity : Collection :=
    (optimizer_variables.zip grads).map (fun p => velocity_update h p.1 p.2)
  let new_trainable : Collection :=
    (trainable_variables.zip new_velocity).map
      (fun p => (p.1.zip p.2).map (fun q => q.1 + q.2))
  (new_trainable, new_velocity)

/-- A collection of zero arrays with the shapes of `c` (used to instantiate
the abstract engine in witnesses). -/
def zeroLike (c : Collection) : Collection :=
  c.map (fun a => a.map (fun _ => 0))

theorem zeroLike_shape (c : Collection) : shapeSig (zeroLike c) = shapeSig c := by
  simp [zeroLike, shapeSig, List.map_map, Function.comp]

/-- A concrete engine whose gradient is everywhere zero (shape-correct). -/
def zeroEngine : AutodiffEngine :=
  ⟨fun _ tv => zeroLike tv, fun _ tv => zeroLike_shape tv⟩

/-- A concrete model: predictions echo the inputs, non-trainable variables are
returned unchanged, no tracked losses. -/
def idModel : Model :=
  ⟨fun _ ntv x _ => (x, ntv), fun _ ntv x => (x, ntv, [])⟩

/-- A concrete loss function. -/
def zeroLoss : LossFn := fun _ _ => 0

/-- A concrete optimizer update that returns both collections unchanged. -/
def idOptApply : OptimizerApply := fun ov _ tv => (tv, ov)

/-- A concrete metric update that leaves the accumulator unchanged. -/
def idMetricUpdate : MetricUpdate := fun mv _ _ => mv

theorem matchCount_append (y₁ p₁ y₂ p₂ : List Arr)
    (h₁ : y₁.length = p₁.length) :
    matchCount (y₁ ++ y₂) (p₁ ++ p₂) = matchCount y₁ p₁ + matchCount y₂ p₂ := by
  simp [matchCount, List.zip_append h₁, List.filter_append]

theorem velocity_update_zero (h : OptHyper) (v g : Arr)
    (hv : ∀ q ∈ v, q = 0) (hg : ∀ q ∈ g, q = 0) :
    ∀ q ∈ velocity_update h v g, q = 0 := by
  intro q hq
  simp only [velocity_update, List.mem_map] at hq
  obtain ⟨p, hp, rfl⟩ := hq
  have hmem := List.of_mem_zip hp
  rw [hv _ hmem.1, hg _ hmem.2]
  ring

theorem zip_add_zero (t v : Arr) (hlen : t.length ≤ v.length)
    (hv : ∀ q ∈ v, q = 0) :
    (t.zip v).map (fun q => q.1 + q.2) = t := by
  induction t generalizing v with
  | nil => simp
  | cons a t ih =>
    cases v with
    | nil => simp at hlen
    | cons b v =>
      simp only [List.zip_cons_cons, List.map_cons]
      rw [hv b (List.mem_cons_self b v), add_zero]
      rw [ih v (Nat.le_of_succ_le_succ hlen)
        (fun q hq => hv q (List.mem_cons_of_mem b hq))]

/-- C1: for a fixed input pair `(state, batch)` (and fixed external
collaborators), repeated invocations of `train_step` and of `eval_step` —
at any call count and any wall-clock time — return identical
`(loss, state')`: both step functions are pure functions of their explicit
arguments with no hidden mutable state. -/
theorem step_invocations_deterministic
    (E : AutodiffEngine) (M : Model) (loss_fn : LossFn)
    (opt_apply : OptimizerApply) (mu mv : MetricUpdate)
    (s : TrainState) (es : EvalState) (d : Batch)
    (n₁ c₁ n₂ c₂ : Nat) :
    train_step_invocation n₁ c₁ E M loss_fn opt_apply mu s d
      = train_step_invocation n₂ c₂ E M loss_fn opt_apply mu s d
    ∧ eval_step_invocation n₁ c₁ M loss_fn mv es d
      = eval_step_invocation n₂ c₂ M loss_fn mv es d :=
  ⟨rfl, rfl⟩

/-- C2: `train_step` computes its result by the exact sequence forward pass →
loss → gradient of the loss with respect to the trainable parameters →
optimizer update → metric accumulation, and returns the loss with the updated
four-component tuple; and in the tracked-losses variant of
`compute_loss_and_updates` the sum of the tracked regularization losses is
added to the loss exactly when that list is non-empty. -/
theorem train_step_exact_sequence
    (E : AutodiffEngine) (M : Model) (loss_fn : LossFn)
    (opt_apply : OptimizerApply) (metric_update : MetricUpdate)
    (s : TrainState) (tv ntv mv : Collection) (x y : List Arr) :
    train_step E M loss_fn opt_apply metric_update s (x, y)
      = (loss_fn y
           (M.stateless_call s.trainable_variables s.non_trainable_variables
             x false).1,
         ⟨(opt_apply s.optimizer_variables
             (E.grad
               (fun v => loss_fn y
                 (M.stateless_call v s.non_trainable_variables x false).1)
               s.trainable_variables)
             s.trainable_variables).1,
          (M.stateless_call s.trainable_variables s.non_trainable_variables
            x false).2,
          (opt_apply s.optimizer_variables
             (E.grad
               (fun v => loss_fn y
                 (M.stateless_call v s.non_trainable_variables x false).1)
               s.trainable_variables)
             s.trainable_variables).2,
          metric_update s.metric_variables y
            (M.stateless_call s.trainable_variables s.non_trainable_variables
              x false).1⟩)
    ∧ (compute_loss_and_updates_with_losses M loss_fn metric_update
         tv ntv mv x y).1
      = (if (M.stateless_call_losses tv ntv x).2.2 = []
         then loss_fn y (M.stateless_call_losses tv ntv x).1
         else loss_fn y (M.stateless_call_losses tv ntv x).1
              + ((M.stateless_call_losses tv ntv x).2.2).sum) :=
  ⟨rfl, rfl⟩

/-- C3: `eval_step` performs only a forward pass, loss computation and metric
accumulation — no gradient and no optimizer update appear in its result — and
the trainable-parameter component of the returned three-component state is
exactly the one it received, passed through unchanged. -/
theorem eval_step_forward_only_passthrough
    (M : Model) (loss_fn : LossFn) (metric_update : MetricUpdate)
    (s : EvalState) (x y : List Arr) :
    (eval_step M loss_fn metric_update s (x, y)).2.trainable_variables
      = s.trainable_variables
    ∧ eval_step M loss_fn metric_update s (x, y)
      = (loss_fn y
           (M.stateless_call s.trainable_variables s.non_trainable_variables
             x false).1,
         ⟨s.trainable_variables,
          (M.stateless_call s.trainable_variables s.non_trainable_variables
            x false).2,
          metric_update s.metric_variables y
            (M.stateless_call s.trainable_variables s.non_trainable_variables
              x false).1⟩) :=
  ⟨rfl, rfl⟩

/-- C4: in both `compute_loss_and_updates` variants handed to the
loss-and-gradient evaluator, the scalar loss is the first element of the
return value and is the quantity differentiated; the evaluator passes the
value — loss first, auxiliary outputs unmodified — through exactly, alongside
gradients whose shape signature equals that of the trainable-parameter
argument. -/
theorem grad_fn_loss_first_aux_passthrough
    (E : AutodiffEngine) (M : Model) (loss_fn : LossFn)
    (metric_update : MetricUpdate)
    (tv ntv mv : Collection) (x y : List Arr) :
    (value_and_grad_aux E
        (fun v => compute_loss_and_updates_v1 M loss_fn v ntv x y) tv).1
      = compute_loss_and_updates_v1 M loss_fn tv ntv x y
    ∧ (value_and_grad_aux E
        (fun v => compute_loss_and_updates_v1 M loss_fn v ntv x y) tv).2
      = E.grad (fun v => loss_fn y (M.stateless_call v ntv x true).1) tv
    ∧ shapeSig ((value_and_grad_aux E
        (fun v => compute_loss_and_updates_v1 M loss_fn v ntv x y) tv).2)
      = shapeSig tv
    ∧ (grad_fn E M loss_fn metric_update tv ntv mv x y).1
      = compute_loss_and_updates M loss_fn metric_update tv ntv mv x y
    ∧ (grad_fn E M loss_fn metric_update tv ntv mv x y).2
      = E.grad (fun v => loss_fn y (M.stateless_call v ntv x false).1) tv
    ∧ shapeSig ((grad_fn E M loss_fn metric_update tv ntv mv x y).2)
      = shapeSig tv :=
  ⟨rfl, rfl, E.grad_shape _ tv, rfl, rfl, E.grad_shape _ tv⟩

/-- C9: the loss returned by `train_step` and the predictions fed to the
metric update are computed from the input (pre-update) trainable parameters,
inside `compute_loss_and_updates`, before the optimizer update: both are
independent of the optimizer update rule altogether. -/
theorem train_step_uses_pre_update_params
    (E : AutodiffEngine) (M : Model) (loss_fn : LossFn)
    (opt₁ opt₂ : OptimizerApply) (metric_update : MetricUpdate)
    (s : TrainState) (x y : List Arr) :
    (train_step E M loss_fn opt₁ metric_update s (x, y)).1
      = loss_fn y
          (M.stateless_call s.trainable_variables s.non_trainable_variables
            x false).1
    ∧ (train_step E M loss_fn opt₁ metric_update s (x, y)).2.metric_variables
      = metric_update s.metric_variables y
          (M.stateless_call s.trainable_variables s.non_trainable_variables
            x false).1
    ∧ (train_step E M loss_fn opt₁ metric_update s (x, y)).1
      = (train_step E M loss_fn opt₂ metric_update s (x, y)).1
    ∧ (train_step E M loss_fn opt₁ metric_update s (x, y)).2.metric_variables
      = (train_step E M loss_fn opt₂ metric_update s (x, y)).2.metric_variables :=
  ⟨rfl, rfl, rfl, rfl⟩

/-- C10: the final-state re-attachment writes only the model's trainable and
non-trainable variable objects, and the metric-logging assigns write only the
metric objects; none of these writes — nor their composition over a whole run
— changes the mutable optimizer object's variables, which keep their
build-time values. -/
theorem reattachment_never_writes_optimizer_variables
    (objs : MutableObjects) (tv ntv mv mv' : Collection) :
    (reattach_model_variables objs tv ntv).optimizer_variables
      = objs.optimizer_variables
    ∧ (reattach_model_variables objs tv ntv).train_acc_metric_variables
      = objs.train_acc_metric_variables
    ∧ (reattach_model_variables objs tv ntv).val_acc_metric_variables
      = objs.val_acc_metric_variables
    ∧ (attach_train_metric_variables objs mv).optimizer_variables
      = objs.optimizer_variables
    ∧ (attach_val_metric_variables objs mv').optimizer_variables
      = objs.optimizer_variables
    ∧ (attach_val_metric_variables
        (reattach_model_variables
          (attach_train_metric_variables objs mv) tv ntv)
        mv').optimizer_variables
      = objs.optimizer_variables :=
  ⟨rfl, rfl, rfl, rfl, rfl, rfl⟩

/-- C5: under the spec's shape contracts for the external collaborators (the
model preserves the non-trainable shapes, the optimizer update returns
trainable/accumulator collections with the input shapes, the metric update
preserves the accumulator shapes), every component of the state tuple a step
function returns has the same shape signature as the component it received —
for `train_step` (trainable, non-trainable, optimizer accumulator, metric
accumulator) and for `eval_step` (its three components). -/
theorem step_shape_invariance
    (E : AutodiffEngine) (M : Model) (loss_fn : LossFn)
    (opt_apply : OptimizerApply) (metric_update : MetricUpdate)
    (hM : ∀ tv ntv x tr,
      shapeSig (M.stateless_call tv ntv x tr).2 = shapeSig ntv)
    (hOpt : ∀ ov g tv, shapeSig (opt_apply ov g tv).1 = shapeSig tv
      ∧ shapeSig (opt_apply ov g tv).2 = shapeSig ov)
    (hMet : ∀ mv y yp, shapeSig (metric_update mv y yp) = shapeSig mv)
    (s : TrainState) (es : EvalState) (d : Batch) :
    shapeSig (train_step E M loss_fn opt_apply metric_update s d).2.trainable_variables
      = shapeSig s.trainable_variables
    ∧ shapeSig (train_step E M loss_fn opt_apply metric_update s d).2.non_trainable_variables
      = shapeSig s.non_trainable_variables
    ∧ shapeSig (train_step E M loss_fn opt_apply metric_update s d).2.optimizer_variables
      = shapeSig s.optimizer_variables
    ∧ shapeSig (train_step E M loss_fn opt_apply metric_update s d).2.metric_variables
      = shapeSig s.metric_variables
    ∧ shapeSig (eval_step M loss_fn metric_update es d).2.trainable_variables
      = shapeSig es.trainable_variables
    ∧ shapeSig (eval_step M loss_fn metric_update es d).2.non_trainable_variables
      = shapeSig es.non_trainable_variables
    ∧ shapeSig (eval_step M loss_fn metric_update es d).2.metric_variables
      = shapeSig es.metric_variables :=
  ⟨(hOpt _ _ _).1, hM _ _ _ _, (hOpt _ _ _).2, hMet _ _ _,
   rfl, hM _ _ _ _, hMet _ _ _⟩

/-- Witness for C5: the shape-invariance theorem applied to concrete
collaborators and a concrete state and batch, every contract hypothesis
discharged. -/
theorem step_shape_invariance_witness :
    shapeSig (train_step zeroEngine idModel zeroLoss idOptApply idMetricUpdate
        ⟨[[1]], [[2, 2]], [[3]], [[4], [5]]⟩
        ([[1, 0]], [[0, 1]])).2.trainable_variables
      = shapeSig [[1]]
    ∧ shapeSig (train_step zeroEngine idModel zeroLoss idOptApply idMetricUpdate
        ⟨[[1]], [[2, 2]], [[3]], [[4], [5]]⟩
        ([[1, 0]], [[0, 1]])).2.non_trainable_variables
      = shapeSig [[2, 2]]
    ∧ shapeSig (train_step zeroEngine idModel zeroLoss idOptApply idMetricUpdate
        ⟨[[1]], [[2, 2]], [[3]], [[4], [5]]⟩
        ([[1, 0]], [[0, 1]])).2.optimizer_variables
      = shapeSig [[3]]
    ∧ shapeSig (train_step zeroEngine idModel zeroLoss idOptApply idMetricUpdate
        ⟨[[1]], [[2, 2]], [[3]], [[4], [5]]⟩
        ([[1, 0]], [[0, 1]])).2.metric_variables
      = shapeSig [[4], [5]]
    ∧ shapeSig (eval_step idModel zeroLoss idMetricUpdate
        ⟨[[1]], [[2, 2]], [[4], [5]]⟩
        ([[1, 0]], [[0, 1]])).2.trainable_variables
      = shapeSig [[1]]
    ∧ shapeSig (eval_step idModel zeroLoss idMetricUpdate
        ⟨[[1]], [[2, 2]], [[4], [5]]⟩
        ([[1, 0]], [[0, 1]])).2.non_trainable_variables
      = shapeSig [[2, 2]]
    ∧ shapeSig (eval_step idModel zeroLoss idMetricUpdate
        ⟨[[1]], [[2, 2]], [[4], [5]]⟩
        ([[1, 0]], [[0, 1]])).2.metric_variables
      = shapeSig [[4], [5]] :=
  step_shape_invariance zeroEngine idModel zeroLoss idOptApply idMetricUpdate
    (fun _ _ _ _ => rfl) (fun _ _ _ => ⟨rfl, rfl⟩) (fun _ _ _ => rfl)
    ⟨[[1]], [[2, 2]], [[3]], [[4], [5]]⟩
    ⟨[[1]], [[2, 2]], [[4], [5]]⟩
    ([[1, 0]], [[0, 1]])

/-- C6 (code evaluated at the failing input): the eval-state setup hands the
first `eval_step` call the metric accumulator left over from the training
loop, not the validation metric's zero accumulator: with
`val_acc_metric.variables = [[0], [0]]` and a training state whose metric
component is `[[5], [7]]`, the packed eval state carries `[[5], [7]]`, which
differs from the zero accumulator. -/
theorem eval_state_setup_keeps_training_metric_accum :
    (eval_state_setup [[0], [0]]
        ⟨[[1]], [[2]], [[3]], [[5], [7]]⟩).metric_variables
      = [[5], [7]]
    ∧ ([[5], [7]] : Collection) ≠ [[0], [0]] :=
  ⟨rfl, by decide⟩

/-- C7: metric accumulation is additive: updating with batch `b₁` then batch
`b₂` equals a single update with their concatenation (when `b₁`'s targets and
predictions have equal length, so the rows stay paired), the two per-batch
updates commute, and in particular
`reduce (update (update reset b₁) b₂) = reduce (update reset (b₁ ++ b₂))`. -/
theorem metric_accumulation_additive
    (a : MetricAccum) (y₁ p₁ y₂ p₂ : List Arr)
    (h₁ : y₁.length = p₁.length) :
    metric_update_state (metric_update_state a y₁ p₁) y₂ p₂
      = metric_update_state a (y₁ ++ y₂) (p₁ ++ p₂)
    ∧ metric_update_state (metric_update_state a y₁ p₁) y₂ p₂
      = metric_update_state (metric_update_state a y₂ p₂) y₁ p₁
    ∧ metric_result
        (metric_update_state (metric_update_state metric_reset y₁ p₁) y₂ p₂)
      = metric_result
        (metric_update_state metric_reset (y₁ ++ y₂) (p₁ ++ p₂)) := by
  have hconcat :
      metric_update_state (metric_update_state a y₁ p₁) y₂ p₂
        = metric_update_state a (y₁ ++ y₂) (p₁ ++ p₂) := by
    simp only [metric_update_state, matchCount_append y₁ p₁ y₂ p₂ h₁,
      List.length_append, MetricAccum.mk.injEq]
    constructor
    · ring
    · push_cast
      ring
  have hreset :
      metric_update_state (metric_update_state metric_reset y₁ p₁) y₂ p₂
        = metric_update_state metric_reset (y₁ ++ y₂) (p₁ ++ p₂) := by
    simp only [metric_update_state, matchCount_append y₁ p₁ y₂ p₂ h₁,
      List.length_append, MetricAccum.mk.injEq]
    constructor
    · ring
    · push_cast
      ring
  refine ⟨hconcat, ?_, by rw [hreset]⟩
  simp only [metric_update_state, MetricAccum.mk.injEq]
  constructor
  · ring
  · ring

/-- Witness for C7: the additivity theorem at two concrete batches. -/
theorem metric_accumulation_additive_witness :
    metric_update_state
        (metric_update_state ⟨1, 2⟩ [[1, 0]] [[0, 1]])
        [[0, 1], [1, 0]] [[0, 1], [2, 0]]
      = metric_update_state ⟨1, 2⟩
          ([[1, 0]] ++ [[0, 1], [1, 0]]) ([[0, 1]] ++ [[0, 1], [2, 0]])
    ∧ metric_update_state
        (metric_update_state ⟨1, 2⟩ [[1, 0]] [[0, 1]])
        [[0, 1], [1, 0]] [[0, 1], [2, 0]]
      = metric_update_state
          (metric_update_state ⟨1, 2⟩ [[0, 1], [1, 0]] [[0, 1], [2, 0]])
          [[1, 0]] [[0, 1]]
    ∧ metric_result
        (metric_update_state
          (metric_update_state metric_reset [[1, 0]] [[0, 1]])
          [[0, 1], [1, 0]] [[0, 1], [2, 0]])
      = metric_result
        (metric_update_state metric_reset
          ([[1, 0]] ++ [[0, 1], [1, 0]]) ([[0, 1]] ++ [[0, 1], [2, 0]])) :=
  metric_accumulation_additive ⟨1, 2⟩
    [[1, 0]] [[0, 1]] [[0, 1], [1, 0]] [[0, 1], [2, 0]] rfl

/-- C8 fails as stated: for the momentum-family update rule (the notebook's
optimizer is such a rule), an all-zero gradient does not leave the trainable
parameters unchanged for every accumulator state — with learning rate `1/10`,
momentum `9/10`, accumulator `[[1]]`, zero gradient `[[0]]` and parameters
`[[1]]`, the update moves the parameters to `[[19/10]]`. -/
theorem zero_gradient_moves_params_under_momentum :
    (momentum_stateless_apply ⟨1/10, 9/10⟩ [[1]] [[0]] [[1]]).1 ≠ [[1]] := by
  norm_num [momentum_stateless_apply, velocity_update]

/-- C8 amended: with an all-zero gradient AND an all-zero optimizer
accumulator (its build-time initial state), and collections of matching
shapes, the momentum-descent update returns the trainable parameters
unchanged. -/
theorem zero_gradient_zero_accum_leaves_params_unchanged
    (h : OptHyper) (ov g tv : Collection)
    (hog : shapeSig ov = shapeSig g)
    (hto : shapeSig tv = shapeSig ov)
    (hv : ∀ a ∈ ov, ∀ q ∈ a, q = 0)
    (hg : ∀ a ∈ g, ∀ q ∈ a, q = 0) :
    (momentum_stateless_apply h ov g tv).1 = tv := by
  induction ov generalizing g tv with
  | nil =>
    have hg' : g = [] := by
      simpa [shapeSig] using hog.symm
    have ht' : tv = [] := by
      simpa [shapeSig] using hto
    subst hg'
    subst ht'
    rfl
  | cons v ovs ih =>
    cases g with
    | nil => simp [shapeSig] at hog
    | cons g0 gs =>
      cases tv with
      | nil => simp [shapeSig] at hto
      | cons t ts =>
        simp only [shapeSig, List.map_cons, List.cons.injEq] at hog hto
        have hv0 : ∀ q ∈ v, q = 0 := hv v (List.mem_cons_self v ovs)
        have hg0 : ∀ q ∈ g0, q = 0 := hg g0 (List.mem_cons_self g0 gs)
        have hlen : t.length ≤ (velocity_update h v g0).length := by
          simp only [velocity_update, List.length_map, List.length_zip]
          omega
        have hhead :
            (t.zip (velocity_update h v g0)).map (fun q => q.1 + q.2) = t :=
          zip_add_zero t (velocity_update h v g0) hlen
            (velocity_update_zero h v g0 hv0 hg0)
        have htail : (momentum_stateless_apply h ovs gs ts).1 = ts :=
          ih gs ts hog.2 hto.2
            (fun a ha => hv a (List.mem_cons_of_mem v ha))
            (fun a ha => hg a (List.mem_cons_of_mem g0 ha))
        simp only [momentum_stateless_apply, List.zip_cons_cons,
          List.map_cons, List.cons.injEq]
        exact ⟨hhead, htail⟩

/-- Witness for C8's amended claim: concrete zero accumulator and zero
gradient leave concrete parameters unchanged. -/
theorem zero_gradient_zero_accum_witness :
    (momentum_stateless_apply ⟨1/10, 9/10⟩ [[0, 0]] [[0, 0]] [[3, 4]]).1
      = [[3, 4]] :=
  zero_gradient_zero_accum_leaves_params_unchanged ⟨1/10, 9/10⟩
    [[0, 0]] [[0, 0]] [[3, 4]] rfl rfl (by decide) (by decide)
